import Mathlib

/-!
Verification of the session-recording utility (a `script(1)` reimplementation).

The definitions below are a shallow embedding of the Rust sources:
* `src/logging.rs`    — `ScriptLogger` and its operations,
* `src/script_control.rs` — `ScriptControl` (sink setup, size-limit fanout,
  the I/O proxy loop, parent-side run flow),
* `src/utils.rs`      — `die_if_link`,
* `src/main.rs`       — exit-code behaviour of `main`.

Modelling conventions:
* Byte buffers and byte chunks are Lean `String`s; `.length` stands for the
  Rust `len()` of the corresponding byte slice.
* The monotonic clock (`Instant`) is a `Nat` counting microseconds, threaded
  as an explicit `now` parameter; `Duration::as_secs_f64` rendered with six
  fractional digits is `fmtSecs6` (exact decimal rendering at microsecond
  precision).
* A sink's lazily-opened `BufWriter` is `writer : Option String`: `none`
  before `start`/after `close`, `some buf` with the buffered bytes otherwise.
* Side effects on the file system and the process are returned as values:
  opening a file yields an `OpenSpec` describing the `OpenOptions` flags,
  closing yields the final flushed file content, and the proxy loop yields a
  trace of `Action`s.
-/

namespace RustScript

/-- `LogFormat` from `src/logging.rs` (Raw, TimingSimple, TimingMulti). -/
inductive LogFormat where
  | raw
  | timingSimple
  | timingMulti
deriving DecidableEq

/-- `LogStream` from `src/logging.rs`. -/
inductive LogStream where
  | input
  | output
deriving DecidableEq

/-- Errors surfaced by the logging layer: `anyhow!("Logger not initialized")`
from `log_data`, and `anyhow!("Output size limit exceeded")` from
`ScriptControl::log_input` / `log_output`. -/
inductive LogErr where
  | notInitialized
  | limitExceeded
deriving DecidableEq

/-- State of a `ScriptLogger` (`src/logging.rs`): path, format, append flag,
the lazily opened buffered writer, the two timing instants and the
`initialized` flag. -/
structure ScriptLogger where
  path : String
  format : LogFormat
  append : Bool
  writer : Option String
  startTime : Option Nat
  lastTime : Option Nat
  initialized : Bool
deriving DecidableEq

/-- `ScriptLogger::new`: nothing is opened at construction time. -/
def ScriptLogger.new (path : String) (format : LogFormat) (append : Bool) :
    ScriptLogger :=
  { path := path
    format := format
    append := append
    writer := none
    startTime := none
    lastTime := none
    initialized := false }

/-- Decimal rendering of a microsecond count as seconds with six fractional
digits: the embedding of formatting `Duration::as_secs_f64()` with `%.6f`. -/
def fmtSecs6 (micros : Nat) : String :=
  let frac := micros % 1000000
  let fracStr := toString frac
  let pad := String.mk (List.replicate (6 - fracStr.length) '0')
  toString (micros / 1000000) ++ "." ++ pad ++ fracStr

/-- The header a Raw sink buffers in `ScriptLogger::start_with_data`
(`src/logging.rs` lines 71-93).  Note that the source uses `writeln!` for the
opening `"Script started on {} ["` piece, so a newline is emitted right after
the opening bracket. -/
def rawHeader (ts : String) (isTerm : Bool) (ttyType ttyName : Option String)
    (ttyCols ttyLines : Nat) (commandNorm : Option String) : String :=
  "Script started on " ++ ts ++ " [\n"
    ++ (match commandNorm with
        | some c => "COMMAND=\"" ++ c ++ "\""
        | none => "")
    ++ (if isTerm then
          (match ttyType with
           | some t => " TERM=\"" ++ t ++ "\""
           | none => "")
          ++ (match ttyName with
              | some n => " TTY=\"" ++ n ++ "\""
              | none => "")
          ++ " COLUMNS=\"" ++ toString ttyCols
          ++ "\" LINES=\"" ++ toString ttyLines ++ "\""
        else " <not executed on terminal>")
    ++ "]\n"

/-- The footer a Raw sink writes in `ScriptLogger::close`. -/
def rawFooter (ts : String) (exitStatus : Int) : String :=
  "\nScript done on " ++ ts ++ " [COMMAND_EXIT_CODE=\"" ++ toString exitStatus
    ++ "\"]\n"

/-- The `OpenOptions` flags with which `start_with_data` opens the sink's
file (`create(true).write(true)` always; append/truncate as recorded). -/
structure OpenSpec where
  path : String
  append : Bool
  truncate : Bool
deriving DecidableEq

/-- `ScriptLogger::start_with_data`: a no-op when already initialized,
otherwise opens the file (the returned `OpenSpec` records the flags:
`append(self.append && self.format == Raw)`,
`truncate(!self.append || self.format != Raw)`), buffers the Raw header or
initializes the timing instants, and sets `initialized`. -/
def ScriptLogger.start_with_data (ts : String) (now : Nat) (isTerm : Bool)
    (ttyType ttyName : Option String) (ttyCols ttyLines : Nat)
    (commandNorm : Option String) (st : ScriptLogger) :
    ScriptLogger × Option OpenSpec :=
  if st.initialized then (st, none)
  else
    let spec : OpenSpec :=
      { path := st.path
        append := st.append && decide (st.format = LogFormat.raw)
        truncate := !st.append || decide (st.format ≠ LogFormat.raw) }
    match st.format with
    | LogFormat.raw =>
        ({ st with
            writer := some (rawHeader ts isTerm ttyType ttyName ttyCols
              ttyLines commandNorm)
            initialized := true }, some spec)
    | _ =>
        ({ st with
            writer := some ""
            startTime := some now
            lastTime := some now
            initialized := true }, some spec)

/-- The textual record of a TimingSimple sink: `"<delta> <n>\n"`. -/
def classicRecord (deltaStr : String) (n : Nat) : String :=
  deltaStr ++ " " ++ toString n ++ "\n"

/-- The textual record of a TimingMulti data write: `"<tag> <delta> <n>\n"`. -/
def multiRecord (tag : Char) (deltaStr : String) (n : Nat) : String :=
  String.singleton tag ++ " " ++ deltaStr ++ " " ++ toString n ++ "\n"

/-- The stream tag character used by TimingMulti records. -/
def streamChar : LogStream → Char
  | LogStream.input => 'I'
  | LogStream.output => 'O'

/-- `now.duration_since(last)` with the `None => 0` fallback. -/
def deltaSince (now : Nat) (last : Option Nat) : Nat :=
  match last with
  | some l => now - l
  | none => 0

/-- `ScriptLogger::log_data` (`src/logging.rs` lines 108-159): fails when the
writer was never opened; for Raw appends the bytes and returns their count;
for the timing formats appends one textual record, advances `last_time`, and
returns the length of the record (the source computes the return value with a
second `format!` of the same shape, mirrored verbatim here). -/
def ScriptLogger.log_data (now : Nat) (stream : LogStream) (data : String)
    (st : ScriptLogger) : ScriptLogger × Except LogErr Nat :=
  match st.writer with
  | none => (st, Except.error LogErr.notInitialized)
  | some buf =>
    match st.format with
    | LogFormat.raw =>
        ({ st with writer := some (buf ++ data) }, Except.ok data.length)
    | LogFormat.timingSimple =>
        let delta := deltaSince now st.lastTime
        ({ st with
            writer := some (buf ++ classicRecord (fmtSecs6 delta) data.length)
            lastTime := some now },
         Except.ok (fmtSecs6 delta ++ " " ++ toString data.length ++ "\n").length)
    | LogFormat.timingMulti =>
        let delta := deltaSince now st.lastTime
        let tag := streamChar stream
        ({ st with
            writer := some (buf ++ multiRecord tag (fmtSecs6 delta) data.length)
            lastTime := some now },
         Except.ok (String.singleton tag ++ " " ++ fmtSecs6 delta ++ " "
           ++ toString data.length ++ "\n").length)

/-- `ScriptLogger::log_signal`: a silent no-op on non-TimingMulti sinks,
otherwise an `S <delta> <name> [<message>]` record. -/
def ScriptLogger.log_signal (now : Nat) (name : String) (msg : Option String)
    (st : ScriptLogger) : ScriptLogger × Except LogErr Unit :=
  if st.format ≠ LogFormat.timingMulti then (st, Except.ok ())
  else
    match st.writer with
    | none => (st, Except.error LogErr.notInitialized)
    | some buf =>
      let delta := deltaSince now st.lastTime
      let line :=
        match msg with
        | some m => "S " ++ fmtSecs6 delta ++ " " ++ name ++ " " ++ m ++ "\n"
        | none => "S " ++ fmtSecs6 delta ++ " " ++ name ++ "\n"
      ({ st with writer := some (buf ++ line), lastTime := some now },
       Except.ok ())

/-- `ScriptLogger::log_info`: a silent no-op on non-TimingMulti sinks,
otherwise an `H 0.0 <name> <value>` record (no time update). -/
def ScriptLogger.log_info (name value : String) (st : ScriptLogger) :
    ScriptLogger × Except LogErr Unit :=
  if st.format ≠ LogFormat.timingMulti then (st, Except.ok ())
  else
    match st.writer with
    | none => (st, Except.error LogErr.notInitialized)
    | some buf =>
      ({ st with writer := some (buf ++ "H 0.0 " ++ name ++ " " ++ value ++ "\n") },
       Except.ok ())

/-- `ScriptLogger::close`: takes the writer out (so a second close is a
no-op), appends the Raw footer or the TimingMulti `DURATION` / `EXIT_CODE`
trailer, and flushes.  The second component is the final flushed file
content (`none` when the writer was already gone). -/
def ScriptLogger.close (ts : String) (now : Nat) (exitStatus : Int)
    (st : ScriptLogger) : ScriptLogger × Option String :=
  match st.writer with
  | none => (st, none)
  | some buf =>
    let content :=
      match st.format with
      | LogFormat.raw => buf ++ rawFooter ts exitStatus
      | LogFormat.timingMulti =>
          match st.startTime with
          | some start =>
              buf ++ "H 0.0 DURATION " ++ fmtSecs6 (now - start) ++ "\n"
                ++ "H 0.0 EXIT_CODE " ++ toString exitStatus ++ "\n"
          | none => buf
      | LogFormat.timingSimple => buf
    ({ st with writer := none }, some content)

/-! ## Sink setup (`ScriptControl::setup_logging` / `associate_log`) -/

/-- One sink allocation performed by `associate_log` (the sink object's
identity is its position in the allocation list). -/
structure SinkEntry where
  path : String
  format : LogFormat
deriving DecidableEq

/-- The sink registry of a `ScriptControl` after setup: the list of sink
objects in allocation order, and the subscriber lists (`in_logs`,
`out_logs`, `sig_log`, `info_log`) holding positions into it. -/
structure LogSetup where
  sinks : List SinkEntry
  inLogs : List Nat
  outLogs : List Nat
  sigLog : Option Nat
  infoLog : Option Nat
deriving DecidableEq

def LogSetup.empty : LogSetup :=
  { sinks := [], inLogs := [], outLogs := [], sigLog := none, infoLog := none }

/-- `ScriptControl::associate_log`: creates a fresh `ScriptLogger` and pushes
clones of it onto the requested subscriber lists; a TimingMulti sink also
becomes the signal and info log when those are unset. -/
def associate_log (path : String) (format : LogFormat)
    (isInput isOutput : Bool) (s : LogSetup) : LogSetup :=
  let id := s.sinks.length
  { sinks := s.sinks ++ [{ path := path, format := format }]
    inLogs := if isInput then s.inLogs ++ [id] else s.inLogs
    outLogs := if isOutput then s.outLogs ++ [id] else s.outLogs
    sigLog :=
      if format = LogFormat.timingMulti then
        (if s.sigLog = none then some id else s.sigLog)
      else s.sigLog
    infoLog :=
      if format = LogFormat.timingMulti then
        (if s.infoLog = none then some id else s.infoLog)
      else s.infoLog }

/-- What `fs::symlink_metadata` reports about the default output file:
`none` when the file does not exist (metadata unavailable). -/
structure FileMeta where
  isSymlink : Bool
  nlink : Nat
deriving DecidableEq

/-- `utils::die_if_link`: errors when the target exists and is a symlink or
has a hard-link count above one. -/
def die_if_link (meta : Option FileMeta) : Except String Unit :=
  match meta with
  | none => Except.ok ()
  | some m =>
    if m.isSymlink then Except.error "output file is a link"
    else if m.nlink > 1 then Except.error "output file is a link"
    else Except.ok ()

/-- The fields of `Args` (`src/main.rs`) consumed by `setup_logging`. -/
structure ArgsCfg where
  log_in : Option String := none
  log_out : Option String := none
  log_io : Option String := none
  log_timing : Option String := none
  timing : Option (Option String) := none
  logging_format : Option String := none
  file : Option String := none
  force : Bool := false
deriving DecidableEq

/-- `ScriptControl::setup_logging` (`src/script_control.rs` lines 104-174):
registers sinks for `--log-io` / `--log-in` / `--log-out`, resolves the
timing file and format (auto-detecting `advanced` exactly when both an input
and an output file exist), registers the timing sinks (once per subscribed
direction), and falls back to the default `typescript` Raw output file —
guarded by `die_if_link` unless `--force` — when no other file was given.
`defaultFileMeta` stands for `fs::symlink_metadata` of the default file. -/
def setup_logging (cfg : ArgsCfg) (defaultFileMeta : Option FileMeta) :
    Except String LogSetup :=
  let s0 := LogSetup.empty
  let step1 :=
    match cfg.log_io with
    | some p => (associate_log p LogFormat.raw true true s0, some p, some p)
    | none => (s0, (none : Option String), (none : Option String))
  let s1 := step1.1
  let outfile1 := step1.2.1
  let infile1 := step1.2.2
  let step2 :=
    match cfg.log_in with
    | some p => (associate_log p LogFormat.raw true false s1, some p)
    | none => (s1, infile1)
  let s2 := step2.1
  let infile := step2.2
  let step3 :=
    match cfg.log_out with
    | some p => (associate_log p LogFormat.raw false true s2, some p)
    | none => (s2, outfile1)
  let s3 := step3.1
  let outfile := step3.2
  let timingfile : Option String :=
    match cfg.log_timing with
    | some p => some p
    | none =>
      match cfg.timing with
      | some t => t.orElse (fun _ => some "/dev/stderr")
      | none => none
  let fmtE : Except String LogFormat :=
    match cfg.logging_format with
    | some fs =>
      match fs.toLower with
      | "classic" => Except.ok LogFormat.timingSimple
      | "advanced" => Except.ok LogFormat.timingMulti
      | _ => Except.error ("Unsupported logging format: " ++ fs)
    | none =>
      if timingfile.isSome then
        Except.ok (if infile.isSome && outfile.isSome then
          LogFormat.timingMulti else LogFormat.timingSimple)
      else Except.ok LogFormat.raw
  match fmtE with
  | Except.error e => Except.error e
  | Except.ok format =>
    let s4 :=
      match timingfile with
      | some p =>
        let sA := if outfile.isSome then associate_log p format false true s3
                  else s3
        if infile.isSome then associate_log p format true false sA else sA
      | none => s3
    if outfile = none ∧ infile = none then
      let defaultFile := cfg.file.getD "typescript"
      if cfg.force then
        Except.ok (associate_log defaultFile LogFormat.raw false true s4)
      else
        match die_if_link defaultFileMeta with
        | Except.error e => Except.error e
        | Except.ok _ =>
            Except.ok (associate_log defaultFile LogFormat.raw false true s4)
    else Except.ok s4

/-! ## Size-limit fanout (`ScriptControl::log_input` / `log_output`) -/

/-- The shared body of `ScriptControl::log_input` and `log_output`
(`src/script_control.rs` lines 347-377): for each subscribed logger in turn,
`log_data` the chunk (propagating its error), add the accounted size to the
cumulative `out_size`, and fail with the limit error as soon as
`max_size > 0 && out_size >= max_size`.  Returns the updated loggers, the
updated counter, and the outcome. -/
def log_loop (now : Nat) (stream : LogStream) (data : String) (maxSize : Nat) :
    List ScriptLogger → Nat → List ScriptLogger × Nat × Except LogErr Unit
  | [], sz => ([], sz, Except.ok ())
  | st :: rest, sz =>
    let st' := (ScriptLogger.log_data now stream data st).1
    match (ScriptLogger.log_data now stream data st).2 with
    | Except.error e => (st' :: rest, sz, Except.error e)
    | Except.ok n =>
      let sz' := sz + n
      if maxSize > 0 ∧ sz' ≥ maxSize then
        (st' :: rest, sz', Except.error LogErr.limitExceeded)
      else
        let r := log_loop now stream data maxSize rest sz'
        (st' :: r.1, r.2.1, r.2.2)

/-- The accounted size `log_data` reports for one logger (0 on error). -/
def accountedOf (now : Nat) (stream : LogStream) (data : String)
    (st : ScriptLogger) : Nat :=
  match (ScriptLogger.log_data now stream data st).2 with
  | Except.ok n => n
  | Except.error _ => 0

/-! ## The proxy loop (`ScriptControl::proxy_io`) and parent run flow -/

/-- Result of the `waitpid(WNOHANG)` poll at the bottom of each proxy-loop
iteration. -/
inductive WaitSt where
  | stillAlive
  | exited (code : Int)
  | signaled (sig : Int)
  | otherStatus
deriving DecidableEq

/-- The `child_status` value `proxy_io` records for a reaped child:
the code for a normal exit, `128 + signal` for a signaled child, `1`
otherwise, and nothing while the child lives. -/
def childStatusOf : WaitSt → Option Int
  | WaitSt.stillAlive => none
  | WaitSt.exited code => some code
  | WaitSt.signaled sig => some (128 + sig)
  | WaitSt.otherStatus => some 1

/-- `ScriptControl::wait_for_child` (`src/script_control.rs` lines 514-529):
the blocking reap, mapping the wait status exactly like the WNOHANG poll.
(The function exists in the source but is never called.) -/
def wait_for_child : WaitSt → Int
  | WaitSt.exited code => code
  | WaitSt.signaled sig => 128 + sig
  | _ => 1

/-- One readiness event of the `tokio::select!` in `proxy_io`.  The `logOk`
flag on the data events says whether the fanout call (`log_input` /
`log_output`) succeeds or returns an error (e.g. the size limit). -/
inductive PEvent where
  | sigterm
  | sigwinch (cols rows : Nat)
  | stdinData (d : String) (logOk : Bool)
  | stdinEof
  | masterData (d : String) (logOk : Bool)
  | masterEof
  | masterEagain
deriving DecidableEq

/-- Observable actions of the parent process, in program order. -/
inductive Action where
  | startSinks
  | logInputAct (d : String)
  | writeMaster (d : String)
  | logOutputAct (d : String)
  | writeStdout (d : String)
  | logSignalAct (name : String) (msg : Option String)
  | resizePty (cols rows : Nat)
  | killChild (sig : String)
  | reapChildBlocking
  | drainMaster
  | closeSinks (status : Int)
deriving DecidableEq

/-- The `format!("ROWS={} COLS={}", lines, cols)` message of
`handle_window_change`. -/
def winchMsg (rows cols : Nat) : String :=
  "ROWS=" ++ toString rows ++ " COLS=" ++ toString cols

/-- The actions one `select!` arm of `proxy_io` performs, in order
(`src/script_control.rs` lines 264-317).  A signal is logged only when a
TimingMulti sink was registered as `sig_log`; a data chunk is always logged
first and forwarded only when the fanout call succeeded (`?` aborts the
forward otherwise). -/
def stepActions (hasSigLog : Bool) : PEvent → List Action
  | PEvent.sigterm =>
      (if hasSigLog then [Action.logSignalAct "SIGTERM" none] else [])
        ++ [Action.killChild "SIGTERM"]
  | PEvent.sigwinch c r =>
      (if hasSigLog then [Action.logSignalAct "SIGWINCH" (some (winchMsg r c))]
       else [])
        ++ [Action.resizePty c r]
  | PEvent.stdinData d ok =>
      Action.logInputAct d :: (if ok then [Action.writeMaster d] else [])
  | PEvent.stdinEof => []
  | PEvent.masterData d ok =>
      Action.logOutputAct d :: (if ok then [Action.writeStdout d] else [])
  | PEvent.masterEof => []
  | PEvent.masterEagain => []

/-- How each `select!` arm leaves the loop body: fall through to the
WNOHANG child poll, `break` out of the loop, or return an error. -/
inductive StepOutcome where
  | next
  | breakLoop
  | errorOut
deriving DecidableEq

/-- Loop-control behaviour of each arm: SIGTERM and either EOF `break`;
a failed fanout call propagates its error; everything else falls through
to the child poll. -/
def stepKind : PEvent → StepOutcome
  | PEvent.sigterm => StepOutcome.breakLoop
  | PEvent.stdinEof => StepOutcome.breakLoop
  | PEvent.masterEof => StepOutcome.breakLoop
  | PEvent.stdinData _ ok =>
      if ok then StepOutcome.next else StepOutcome.errorOut
  | PEvent.masterData _ ok =>
      if ok then StepOutcome.next else StepOutcome.errorOut
  | PEvent.sigwinch _ _ => StepOutcome.next
  | PEvent.masterEagain => StepOutcome.next

/-- The proxy loop over a list of readiness events, each paired with the
result of the WNOHANG child poll that follows it.  Returns the action trace,
the final `child_status`, and the loop outcome.  On `break` or error the
remaining events (and the child poll of the breaking iteration) are never
examined, exactly as in the source. -/
def proxyRun (hasSigLog : Bool) :
    List (PEvent × WaitSt) → Option Int →
    List Action × Option Int × Except LogErr Unit
  | [], cs => ([], cs, Except.ok ())
  | (ev, chk) :: rest, cs =>
    let acts := stepActions hasSigLog ev
    match stepKind ev with
    | StepOutcome.breakLoop => (acts, cs, Except.ok ())
    | StepOutcome.errorOut => (acts, cs, Except.error LogErr.limitExceeded)
    | StepOutcome.next =>
      match childStatusOf chk with
      | some code => (acts, some code, Except.ok ())
      | none =>
        let r := proxyRun hasSigLog rest cs
        (acts ++ r.1, r.2.1, r.2.2)

/-- The action trace of a proxy run started with no child status. -/
def proxyTrace (hasSigLog : Bool) (evs : List (PEvent × WaitSt)) :
    List Action :=
  (proxyRun hasSigLog evs none).1

/-- `ScriptControl::run_parent`: start the sinks, run the proxy, and — only
when the proxy returned `Ok` — close every sink with
`child_status.unwrap_or(0)`.  A proxy error propagates through `?` and skips
`stop_logging` entirely. -/
def runParent (hasSigLog : Bool) (evs : List (PEvent × WaitSt)) :
    List Action × Option Int × Except LogErr Unit :=
  let r := proxyRun hasSigLog evs none
  match r.2.2 with
  | Except.error e => (Action.startSinks :: r.1, r.2.1, Except.error e)
  | Except.ok _ =>
      (Action.startSinks :: r.1 ++ [Action.closeSinks (r.2.1.getD 0)],
       r.2.1, Except.ok ())

/-- The process exit code produced by `main` (`src/main.rs` lines 78-90):
`main` returns `control.run().context(..)?; Ok(())`, so the process exits 0
whenever the session ran without error and 1 otherwise — `rc_wanted`
(`--return`) and `child_status` are never consulted. -/
def processExitCode (rcWanted : Bool) (childStatus : Option Int)
    (r : Except LogErr Unit) : Nat :=
  match r with
  | Except.ok _ => 0
  | Except.error _ => 1

/-! ## Claim theorems -/

/-- C1 (divergence evidence): the Raw header is not the single line the spec
describes.  The source's `writeln!` for the `Script started on <ts> [` piece
emits a newline right after the opening bracket, so for a session running
`printf hello` the header spans two lines (two newlines in total), and the
transcript produced by start / log / close is that two-line header, then the
child's bytes, then the footer. -/
theorem c1_raw_header_spans_two_lines :
    rawHeader "2024-01-01 10:00:00 +0000" false none none 80 24
        (some "printf hello")
      = "Script started on 2024-01-01 10:00:00 +0000 [\nCOMMAND=\"printf hello\" <not executed on terminal>]\n"
    ∧ (rawHeader "2024-01-01 10:00:00 +0000" false none none 80 24
        (some "printf hello")).toList.count '\n' = 2
    ∧ (ScriptLogger.close "T2" 9 0
        (ScriptLogger.log_data 5 LogStream.output "hello"
          (ScriptLogger.start_with_data "T1" 0 false none none 80 24
            (some "printf hello") (ScriptLogger.new "out" LogFormat.raw false)).1).1).2
      = some (rawHeader "T1" false none none 80 24 (some "printf hello")
          ++ "hello" ++ rawFooter "T2" 0) := by
  refine ⟨rfl, by decide, rfl⟩

/-- C2 (divergence evidence): the proxy loop does record the child's status
(`code` on normal exit, `128 + signal` when signaled), but `main` never
consults `rc_wanted` or `child_status`: the session exiting cleanly with a
child status of 3 still yields process exit code 0 even with `--return`. -/
theorem c2_return_flag_not_propagated :
    (runParent false [(PEvent.masterEagain, WaitSt.exited 3)]).2.1 = some 3
    ∧ (runParent false [(PEvent.masterEagain, WaitSt.exited 3)]).2.2
        = Except.ok ()
    ∧ processExitCode true (some 3) (Except.ok ()) = 0
    ∧ processExitCode true (some 3) (Except.ok ()) ≠ 3
    ∧ childStatusOf (WaitSt.signaled 9) = some 137 := by
  refine ⟨rfl, rfl, rfl, by decide, rfl⟩

/-- C4 (divergence evidence): on the SIGTERM exit path the proxy loop breaks
without draining the master or reaping the child (`wait_for_child` is never
invoked), and the sinks are closed with exit status 0 while `child_status`
is still unset; on a fanout error (size limit) `run_parent` propagates the
error and the sinks are never closed at all. -/
theorem c4_no_drain_no_reap_on_exit :
    (runParent true [(PEvent.sigterm, WaitSt.stillAlive)]).1
      = [Action.startSinks, Action.logSignalAct "SIGTERM" none,
         Action.killChild "SIGTERM", Action.closeSinks 0]
    ∧ (runParent true [(PEvent.sigterm, WaitSt.stillAlive)]).2.1 = none
    ∧ Action.drainMaster ∉ (runParent true [(PEvent.sigterm, WaitSt.stillAlive)]).1
    ∧ Action.reapChildBlocking ∉ (runParent true [(PEvent.sigterm, WaitSt.stillAlive)]).1
    ∧ (runParent true [(PEvent.masterData "x" false, WaitSt.stillAlive)]).1
      = [Action.startSinks, Action.logOutputAct "x"]
    ∧ (runParent true [(PEvent.masterData "x" false, WaitSt.stillAlive)]).2.2
      = Except.error LogErr.limitExceeded := by
  refine ⟨rfl, rfl, by decide, by decide, rfl, rfl⟩

/-- C5: `log_data` on a started sink appends one piece of text to the file
buffer and returns exactly `data.len()` for a Raw sink and the length of the
appended textual timing record for a timing sink. -/
theorem c5_log_data_accounting :
    ∀ (now : Nat) (stream : LogStream) (data : String) (st : ScriptLogger)
      (buf : String), st.writer = some buf →
      ∃ rec,
        (ScriptLogger.log_data now stream data st).1.writer = some (buf ++ rec)
        ∧ (ScriptLogger.log_data now stream data st).2
            = Except.ok (match st.format with
                | LogFormat.raw => data.length
                | _ => rec.length) := by
  intro now stream data st buf hw
  cases hf : st.format
  case raw =>
    exact ⟨data, by simp [ScriptLogger.log_data, hw, hf]⟩
  case timingSimple =>
    refine ⟨classicRecord (fmtSecs6 (deltaSince now st.lastTime)) data.length,
      ?_, ?_⟩ <;>
      simp [ScriptLogger.log_data, hw, hf, classicRecord]
  case timingMulti =>
    refine ⟨multiRecord (streamChar stream)
        (fmtSecs6 (deltaSince now st.lastTime)) data.length, ?_, ?_⟩ <;>
      simp [ScriptLogger.log_data, hw, hf, multiRecord]

/-- C5 witness: a concrete TimingSimple sink. -/
theorem c5_log_data_accounting_witness :
    ∃ rec,
      (ScriptLogger.log_data 1500000 LogStream.output "ab"
        { path := "t", format := LogFormat.timingSimple, append := false,
          writer := some "", startTime := some 0, lastTime := some 0,
          initialized := true }).1.writer = some ("" ++ rec)
      ∧ (ScriptLogger.log_data 1500000 LogStream.output "ab"
        { path := "t", format := LogFormat.timingSimple, append := false,
          writer := some "", startTime := some 0, lastTime := some 0,
          initialized := true }).2
          = Except.ok (match LogFormat.timingSimple with
              | LogFormat.raw => ("ab" : String).length
              | _ => rec.length) :=
  c5_log_data_accounting 1500000 LogStream.output "ab" _ "" rfl

/-- C8: when a not-yet-initialized sink opens its file, a timing-format sink
always opens with `truncate` and never with `append`, regardless of the
configured append flag; only a Raw sink honours `append`. -/
theorem c8_timing_always_truncates :
    ∀ (ts : String) (now : Nat) (isTerm : Bool) (tt tn : Option String)
      (tc tl : Nat) (cn : Option String) (st : ScriptLogger),
      st.initialized = false →
      (st.format ≠ LogFormat.raw →
        (ScriptLogger.start_with_data ts now isTerm tt tn tc tl cn st).2
          = some { path := st.path, append := false, truncate := true })
      ∧ (st.format = LogFormat.raw →
        (ScriptLogger.start_with_data ts now isTerm tt tn tc tl cn st).2
          = some { path := st.path, append := st.append,
                   truncate := !st.append }) := by
  intro ts now isTerm tt tn tc tl cn st hinit
  constructor
  · intro hfmt
    cases hf : st.format
    case raw => exact absurd hf hfmt
    case timingSimple =>
      simp [ScriptLogger.start_with_data, hinit, hf]
    case timingMulti =>
      simp [ScriptLogger.start_with_data, hinit, hf]
  · intro hf
    simp [ScriptLogger.start_with_data, hinit, hf]

/-- C8 witness: an append-configured TimingSimple sink still truncates, and
an append-configured Raw sink appends. -/
theorem c8_timing_always_truncates_witness :
    ((ScriptLogger.start_with_data "T" 0 false none none 80 24 none
        (ScriptLogger.new "t" LogFormat.timingSimple true)).2
      = some { path := "t", append := false, truncate := true })
    ∧ ((ScriptLogger.start_with_data "T" 0 false none none 80 24 none
        (ScriptLogger.new "r" LogFormat.raw true)).2
      = some { path := "r", append := true, truncate := false }) :=
  ⟨(c8_timing_always_truncates "T" 0 false none none 80 24 none
      (ScriptLogger.new "t" LogFormat.timingSimple true) rfl).1 (by decide),
   (c8_timing_always_truncates "T" 0 false none none 80 24 none
      (ScriptLogger.new "r" LogFormat.raw true) rfl).2 rfl⟩

/-- C10: `log_data` on a sink whose writer was never opened fails with the
`Logger not initialized` error and leaves the sink state untouched — and a
freshly constructed logger indeed has no writer and is not initialized, so
the lazy open is observable as exactly this failure. -/
theorem c10_log_data_requires_start :
    ∀ (now : Nat) (stream : LogStream) (data : String) (st : ScriptLogger)
      (path : String) (fmt : LogFormat) (app : Bool),
      st.writer = none →
      ScriptLogger.log_data now stream data st
          = (st, Except.error LogErr.notInitialized)
      ∧ (ScriptLogger.new path fmt app).writer = none
      ∧ (ScriptLogger.new path fmt app).initialized = false := by
  intro now stream data st path fmt app hw
  refine ⟨?_, rfl, rfl⟩
  simp [ScriptLogger.log_data, hw]

/-- C10 witness: a fresh Raw logger rejects `log_data` unchanged. -/
theorem c10_log_data_requires_start_witness :
    ScriptLogger.log_data 0 LogStream.output "hi"
        (ScriptLogger.new "t" LogFormat.raw false)
      = (ScriptLogger.new "t" LogFormat.raw false,
         Except.error LogErr.notInitialized)
    ∧ (ScriptLogger.new "t" LogFormat.raw false).writer = none
    ∧ (ScriptLogger.new "t" LogFormat.raw false).initialized = false :=
  c10_log_data_requires_start 0 LogStream.output "hi" _ "t" LogFormat.raw
    false rfl

/-- C3 counterexample: with `--log-io both.log --log-timing t.log` the timing
file serves both streams, and `setup_logging` calls `associate_log` once per
direction — allocating two distinct sink objects with the same path
`t.log`, so the sink paths are not pairwise distinct. -/
theorem c3_counterexample_shared_timing_path :
    (setup_logging { log_io := some "both.log", log_timing := some "t.log" }
        none).toOption.map (fun s => s.sinks.map SinkEntry.path)
      = some ["both.log", "t.log", "t.log"]
    ∧ ¬ (["both.log", "t.log", "t.log"] : List String).Nodup :=
  ⟨rfl, by decide⟩

/-- C3 amended: a sink created by one `associate_log` call is a single
object even when registered in both subscriber lists (the `--log-io` sink
below is position 0 in both `in_logs` and `out_logs`), and each sink object
opens its file at most once (`start_with_data` on an initialized sink is a
no-op returning no open) and closes it at most once (`close` after the
writer is taken is a no-op); but distinct `associate_log` calls always
allocate distinct sink objects, so a timing file serving both streams is
backed by two sinks sharing its path, each opening the file once. -/
theorem c3_sink_lifecycle_amended :
    (∀ pio pt : String,
      setup_logging { log_io := some pio, log_timing := some pt } none
        = Except.ok
            { sinks := [{ path := pio, format := LogFormat.raw },
                        { path := pt, format := LogFormat.timingMulti },
                        { path := pt, format := LogFormat.timingMulti }],
              inLogs := [0, 2], outLogs := [0, 1],
              sigLog := some 1, infoLog := some 1 })
    ∧ (∀ (ts : String) (now : Nat) (isTerm : Bool) (tt tn : Option String)
        (tc tl : Nat) (cn : Option String) (st : ScriptLogger),
        st.initialized = true →
        ScriptLogger.start_with_data ts now isTerm tt tn tc tl cn st
          = (st, none))
    ∧ (∀ (ts : String) (now : Nat) (ec : Int) (st : ScriptLogger),
        st.writer = none → ScriptLogger.close ts now ec st = (st, none)) := by
  refine ⟨fun pio pt => rfl, ?_, ?_⟩
  · intro ts now isTerm tt tn tc tl cn st h
    simp [ScriptLogger.start_with_data, h]
  · intro ts now ec st h
    simp [ScriptLogger.close, h]

/-- C3 witness: the amended lifecycle facts at concrete inputs — a second
`start` on an already-initialized sink opens nothing, and a second `close`
writes nothing. -/
theorem c3_sink_lifecycle_amended_witness :
    setup_logging { log_io := some "a", log_timing := some "b" } none
      = Except.ok
          { sinks := [{ path := "a", format := LogFormat.raw },
                      { path := "b", format := LogFormat.timingMulti },
                      { path := "b", format := LogFormat.timingMulti }],
            inLogs := [0, 2], outLogs := [0, 1],
            sigLog := some 1, infoLog := some 1 }
    ∧ ScriptLogger.start_with_data "T" 0 false none none 80 24 none
        { path := "p", format := LogFormat.raw, append := false,
          writer := some "hdr", startTime := none, lastTime := none,
          initialized := true }
      = ({ path := "p", format := LogFormat.raw, append := false,
           writer := some "hdr", startTime := none, lastTime := none,
           initialized := true }, none)
    ∧ ScriptLogger.close "T" 0 0
        { path := "p", format := LogFormat.raw, append := false,
          writer := none, startTime := none, lastTime := none,
          initialized := true }
      = ({ path := "p", format := LogFormat.raw, append := false,
           writer := none, startTime := none, lastTime := none,
           initialized := true }, none) :=
  ⟨c3_sink_lifecycle_amended.1 "a" "b",
   c3_sink_lifecycle_amended.2.1 "T" 0 false none none 80 24 none _ rfl,
   c3_sink_lifecycle_amended.2.2 "T" 0 0 _ rfl⟩

/-- Whether the default output file's metadata makes `die_if_link` refuse:
the target exists and is a symlink or has a hard-link count above one. -/
def linky : Option FileMeta → Bool
  | none => false
  | some m => m.isSymlink || decide (m.nlink > 1)

/-- C7: with only the default output file configured, `setup_logging` fails
exactly when `--force` is absent and the existing target is a symlink or has
link count above one (registering no sink, so no file is touched — files are
only opened later by `start_with_data`); with `--force`, or a clean or
absent target, it registers the single default Raw output sink. -/
theorem c7_symlink_guard :
    ∀ (force : Bool) (file : Option String) (meta : Option FileMeta),
      ((∃ e, setup_logging { file := file, force := force } meta
          = Except.error e)
        ↔ (force = false ∧ linky meta = true))
      ∧ (force = true ∨ linky meta = false →
          setup_logging { file := file, force := force } meta
            = Except.ok
                { sinks := [{ path := file.getD "typescript",
                              format := LogFormat.raw }],
                  inLogs := [], outLogs := [0],
                  sigLog := none, infoLog := none }) := by
  intro force file meta
  cases force
  case true =>
    constructor
    · constructor
      · rintro ⟨e, he⟩
        exact absurd he (by simp [setup_logging, associate_log, LogSetup.empty])
      · rintro ⟨h, -⟩
        exact absurd h (by simp)
    · intro _
      rfl
  case false =>
    rcases meta with _ | m
    · constructor
      · constructor
        · rintro ⟨e, he⟩
          exact absurd he (by simp [setup_logging, die_if_link, associate_log,
            LogSetup.empty])
        · rintro ⟨-, h⟩
          exact absurd h (by simp [linky])
      · intro _
        rfl
    · by_cases hs : m.isSymlink = true
      · constructor
        · constructor
          · intro _
            exact ⟨rfl, by simp [linky, hs]⟩
          · intro _
            exact ⟨"output file is a link",
              by simp [setup_logging, die_if_link, hs]⟩
        · rintro (h | h)
          · exact absurd h (by simp)
          · exact absurd h (by simp [linky, hs])
      · replace hs : m.isSymlink = false := by simpa using hs
        by_cases hn : m.nlink > 1
        · constructor
          · constructor
            · intro _
              exact ⟨rfl, by simp [linky, hs, hn]⟩
            · intro _
              exact ⟨"output file is a link",
                by simp [setup_logging, die_if_link, hs, hn]⟩
          · rintro (h | h)
            · exact absurd h (by simp)
            · exact absurd h (by simp [linky, hs, hn])
        · constructor
          · constructor
            · rintro ⟨e, he⟩
              exact absurd he (by simp [setup_logging, die_if_link, hs, hn,
                associate_log, LogSetup.empty])
            · rintro ⟨-, h⟩
              exact absurd h (by simp [linky, hs, hn])
          · intro _
            simp [setup_logging, die_if_link, hs, hn, associate_log,
              LogSetup.empty]

/-- C7 witness: a symlinked `typescript` without `--force` is refused, and
`--force` lets the same target through. -/
theorem c7_symlink_guard_witness :
    (∃ e, setup_logging
        { file := none, force := false }
        (some { isSymlink := true, nlink := 1 }) = Except.error e)
    ∧ setup_logging { file := none, force := true }
        (some { isSymlink := true, nlink := 1 })
      = Except.ok
          { sinks := [{ path := "typescript", format := LogFormat.raw }],
            inLogs := [], outLogs := [0], sigLog := none, infoLog := none } :=
  ⟨(c7_symlink_guard false none (some { isSymlink := true, nlink := 1 })).1.mpr
      ⟨rfl, by decide⟩,
   (c7_symlink_guard true none (some { isSymlink := true, nlink := 1 })).2
      (Or.inl rfl)⟩

/-- On a started sink, `log_data` succeeds and returns its accounted size. -/
lemma log_data_ok_of_writer (now : Nat) (stream : LogStream) (data : String)
    (st : ScriptLogger) (buf : String) (hw : st.writer = some buf) :
    (ScriptLogger.log_data now stream data st).2
      = Except.ok (accountedOf now stream data st) := by
  cases hf : st.format <;>
    simp [ScriptLogger.log_data, accountedOf, hw, hf]

/-- C6: over any list of started sinks, the fanout loop fails with the
limit error exactly when a nonzero limit is configured and the cumulative
counter — the incoming value plus every accounted size of this call —
reaches the limit (with at least one subscribed sink to account); a zero
limit never produces the error, and the counter never decreases. -/
theorem c6_limit_error_iff :
    ∀ (now : Nat) (stream : LogStream) (data : String) (maxSize : Nat)
      (logs : List ScriptLogger) (sz : Nat),
      (∀ st ∈ logs, st.writer.isSome = true) →
      sz ≤ (log_loop now stream data maxSize logs sz).2.1
      ∧ ((log_loop now stream data maxSize logs sz).2.2
            = Except.error LogErr.limitExceeded
          ↔ (maxSize ≠ 0 ∧ logs ≠ []
              ∧ maxSize ≤ sz + (logs.map (accountedOf now stream data)).sum))
      ∧ (maxSize = 0 →
          (log_loop now stream data maxSize logs sz).2.2 = Except.ok ()) := by
  intro now stream data maxSize logs
  induction logs with
  | nil =>
    intro sz _
    refine ⟨le_refl sz, ?_, fun _ => rfl⟩
    simp [log_loop]
  | cons st rest ih =>
    intro sz hall
    have hst : st.writer.isSome = true := hall st (by simp)
    obtain ⟨buf, hbuf⟩ := Option.isSome_iff_exists.mp hst
    have hrest : ∀ s ∈ rest, s.writer.isSome = true :=
      fun s hs => hall s (by simp [hs])
    have hok := log_data_ok_of_writer now stream data st buf hbuf
    by_cases hlim :
        maxSize > 0 ∧ sz + accountedOf now stream data st ≥ maxSize
    · have hres : log_loop now stream data maxSize (st :: rest) sz
          = ((ScriptLogger.log_data now stream data st).1 :: rest,
             sz + accountedOf now stream data st,
             Except.error LogErr.limitExceeded) := by
        simp only [log_loop, hok]
        rw [if_pos hlim]
      rw [hres]
      dsimp only
      refine ⟨by omega, ?_, fun h0 => by omega⟩
      refine iff_of_true rfl ⟨by omega, by simp, ?_⟩
      have := hlim.2
      simp only [List.map_cons, List.sum_cons]
      omega
    · have hres : log_loop now stream data maxSize (st :: rest) sz
          = ((ScriptLogger.log_data now stream data st).1
               :: (log_loop now stream data maxSize rest
                     (sz + accountedOf now stream data st)).1,
             (log_loop now stream data maxSize rest
                (sz + accountedOf now stream data st)).2.1,
             (log_loop now stream data maxSize rest
                (sz + accountedOf now stream data st)).2.2) := by
        simp only [log_loop, hok]
        rw [if_neg hlim]
      rw [hres]
      dsimp only
      obtain ⟨ihmono, ihiff, ihzero⟩ :=
        ih (sz + accountedOf now stream data st) hrest
      refine ⟨by omega, ?_, ihzero⟩
      constructor
      · intro he
        obtain ⟨h1, -, h3⟩ := ihiff.mp he
        refine ⟨h1, by simp, ?_⟩
        simp only [List.map_cons, List.sum_cons]
        omega
      · rintro ⟨h1, -, h3⟩
        simp only [List.map_cons, List.sum_cons] at h3
        apply ihiff.mpr
        refine ⟨h1, ?_, by omega⟩
        intro hnil
        subst hnil
        simp at h3
        omega

/-- C6 witness: one started Raw sink, limit 3, chunk of 4 bytes: the limit
error fires; with limit 0 the same write succeeds. -/
theorem c6_limit_error_iff_witness :
    (0 ≤ (log_loop 0 LogStream.output "abcd" 3
        [{ path := "o", format := LogFormat.raw, append := false,
           writer := some "", startTime := none, lastTime := none,
           initialized := true }] 0).2.1
      ∧ ((log_loop 0 LogStream.output "abcd" 3
            [{ path := "o", format := LogFormat.raw, append := false,
               writer := some "", startTime := none, lastTime := none,
               initialized := true }] 0).2.2
          = Except.error LogErr.limitExceeded
        ↔ ((3 : Nat) ≠ 0
            ∧ [({ path := "o", format := LogFormat.raw, append := false,
                  writer := some "", startTime := none, lastTime := none,
                  initialized := true } : ScriptLogger)] ≠ []
            ∧ (3 : Nat) ≤ 0 +
              ([({ path := "o", format := LogFormat.raw, append := false,
                   writer := some "", startTime := none, lastTime := none,
                   initialized := true } : ScriptLogger)].map
                (accountedOf 0 LogStream.output "abcd")).sum))
      ∧ ((3 : Nat) = 0 →
          (log_loop 0 LogStream.output "abcd" 3
            [{ path := "o", format := LogFormat.raw, append := false,
               writer := some "", startTime := none, lastTime := none,
               initialized := true }] 0).2.2 = Except.ok ()))
    ∧ (log_loop 0 LogStream.output "abcd" 0
        [{ path := "o", format := LogFormat.raw, append := false,
           writer := some "", startTime := none, lastTime := none,
           initialized := true }] 0).2.2 = Except.ok () :=
  ⟨c6_limit_error_iff 0 LogStream.output "abcd" 3 _ 0
      (by intro st hst; simp at hst; subst hst; rfl),
   (c6_limit_error_iff 0 LogStream.output "abcd" 0 _ 0
      (by intro st hst; simp at hst; subst hst; rfl)).2.2 rfl⟩

/-- In trace `tr`, every occurrence of the forwarding action `fwd` is
preceded by an occurrence of the logging action `lg`. -/
def LoggedBefore (lg fwd : Action) (tr : List Action) : Prop :=
  ∀ i, tr.get? i = some fwd → ∃ j, j < i ∧ tr.get? j = some lg

lemma loggedBefore_nil (lg fwd : Action) : LoggedBefore lg fwd [] := by
  intro i hi
  simp at hi

lemma loggedBefore_of_not_mem {lg fwd : Action} {tr : List Action}
    (h : fwd ∉ tr) : LoggedBefore lg fwd tr := by
  intro i hi
  exact absurd (List.get?_mem hi) h

lemma loggedBefore_append {lg fwd : Action} {xs ys : List Action}
    (hx : LoggedBefore lg fwd xs) (hy : LoggedBefore lg fwd ys) :
    LoggedBefore lg fwd (xs ++ ys) := by
  intro i hi
  by_cases h : i < xs.length
  · rw [List.get?_append h] at hi
    obtain ⟨j, hj, hjl⟩ := hx i hi
    exact ⟨j, hj, by rw [List.get?_append (lt_trans hj h)]; exact hjl⟩
  · push_neg at h
    rw [List.get?_append_right h] at hi
    obtain ⟨j, hj, hjl⟩ := hy _ hi
    refine ⟨xs.length + j, by omega, ?_⟩
    rw [List.get?_append_right (by omega)]
    simpa using hjl

/-- A two-element chunk `[lg', fwd']` where the actions agree up to their
payload satisfies `LoggedBefore` for any payload. -/
lemma loggedBefore_pair {lg fwd lg' fwd' : Action}
    (hinj : fwd' = fwd → lg' = lg) (hne : lg' ≠ fwd) :
    LoggedBefore lg fwd [lg', fwd'] := by
  intro i hi
  match i with
  | 0 =>
    simp at hi
    exact absurd hi hne
  | 1 =>
    simp at hi
    exact ⟨0, by omega, by simp [hinj hi]⟩
  | n + 2 =>
    simp at hi

/-- Every `select!`-arm chunk logs an output chunk before writing it to
stdout. -/
lemma step_chunk_out (hasSigLog : Bool) (d : String) (ev : PEvent) :
    LoggedBefore (Action.logOutputAct d) (Action.writeStdout d)
      (stepActions hasSigLog ev) := by
  cases ev with
  | masterData d' ok =>
    cases ok
    · exact loggedBefore_of_not_mem (by simp [stepActions])
    · exact loggedBefore_pair (by intro h; simp at h; simp [h]) (by simp)
  | sigterm =>
    cases hasSigLog <;>
      exact loggedBefore_of_not_mem (by simp [stepActions])
  | sigwinch c r =>
    cases hasSigLog <;>
      exact loggedBefore_of_not_mem (by simp [stepActions])
  | stdinData d' ok =>
    cases ok <;>
      exact loggedBefore_of_not_mem (by simp [stepActions])
  | stdinEof => exact loggedBefore_of_not_mem (by simp [stepActions])
  | masterEof => exact loggedBefore_of_not_mem (by simp [stepActions])
  | masterEagain => exact loggedBefore_of_not_mem (by simp [stepActions])

/-- Every `select!`-arm chunk logs an input chunk before writing it to the
master. -/
lemma step_chunk_in (hasSigLog : Bool) (d : String) (ev : PEvent) :
    LoggedBefore (Action.logInputAct d) (Action.writeMaster d)
      (stepActions hasSigLog ev) := by
  cases ev with
  | stdinData d' ok =>
    cases ok
    · exact loggedBefore_of_not_mem (by simp [stepActions])
    · exact loggedBefore_pair (by intro h; simp at h; simp [h]) (by simp)
  | sigterm =>
    cases hasSigLog <;>
      exact loggedBefore_of_not_mem (by simp [stepActions])
  | sigwinch c r =>
    cases hasSigLog <;>
      exact loggedBefore_of_not_mem (by simp [stepActions])
  | masterData d' ok =>
    cases ok <;>
      exact loggedBefore_of_not_mem (by simp [stepActions])
  | stdinEof => exact loggedBefore_of_not_mem (by simp [stepActions])
  | masterEof => exact loggedBefore_of_not_mem (by simp [stepActions])
  | masterEagain => exact loggedBefore_of_not_mem (by simp [stepActions])

/-- With a signal sink registered, every `select!`-arm chunk logs the
SIGWINCH record before issuing the resize ioctl. -/
lemma step_chunk_winch (c r : Nat) (ev : PEvent) :
    LoggedBefore (Action.logSignalAct "SIGWINCH" (some (winchMsg r c)))
      (Action.resizePty c r) (stepActions true ev) := by
  cases ev with
  | sigwinch c' r' =>
    refine loggedBefore_pair ?_ (by simp)
    intro h
    simp at h
    simp [h.1, h.2]
  | sigterm => exact loggedBefore_of_not_mem (by simp [stepActions])
  | stdinData d' ok =>
    cases ok <;>
      exact loggedBefore_of_not_mem (by simp [stepActions])
  | masterData d' ok =>
    cases ok <;>
      exact loggedBefore_of_not_mem (by simp [stepActions])
  | stdinEof => exact loggedBefore_of_not_mem (by simp [stepActions])
  | masterEof => exact loggedBefore_of_not_mem (by simp [stepActions])
  | masterEagain => exact loggedBefore_of_not_mem (by simp [stepActions])

/-- A `LoggedBefore` fact that holds of every arm chunk holds of the whole
proxy-loop trace. -/
lemma loggedBefore_proxyRun {lg fwd : Action} (hasSigLog : Bool)
    (hstep : ∀ ev, LoggedBefore lg fwd (stepActions hasSigLog ev)) :
    ∀ (evs : List (PEvent × WaitSt)) (cs : Option Int),
      LoggedBefore lg fwd (proxyRun hasSigLog evs cs).1 := by
  intro evs
  induction evs with
  | nil =>
    intro cs
    exact loggedBefore_nil lg fwd
  | cons p rest ih =>
    intro cs
    obtain ⟨ev, chk⟩ := p
    show LoggedBefore lg fwd (proxyRun hasSigLog ((ev, chk) :: rest) cs).1
    simp only [proxyRun]
    cases stepKind ev with
    | breakLoop => exact hstep ev
    | errorOut => exact hstep ev
    | next =>
      cases childStatusOf chk with
      | some code => exact hstep ev
      | none => exact loggedBefore_append (hstep ev) (ih cs)

/-- C9: in every proxy run, an output chunk is logged before it is written
to user stdout, an input chunk is logged before it is written to the master,
and — when an advanced sink is registered as the signal log — the SIGWINCH
record is logged before the master resize ioctl is issued. -/
theorem c9_log_before_forward :
    ∀ (hasSigLog : Bool) (evs : List (PEvent × WaitSt)) (d : String)
      (c r : Nat),
      LoggedBefore (Action.logOutputAct d) (Action.writeStdout d)
        (proxyTrace hasSigLog evs)
      ∧ LoggedBefore (Action.logInputAct d) (Action.writeMaster d)
        (proxyTrace hasSigLog evs)
      ∧ (hasSigLog = true →
          LoggedBefore (Action.logSignalAct "SIGWINCH" (some (winchMsg r c)))
            (Action.resizePty c r) (proxyTrace hasSigLog evs)) := by
  intro hasSigLog evs d c r
  refine ⟨loggedBefore_proxyRun hasSigLog (step_chunk_out hasSigLog d) evs none,
    loggedBefore_proxyRun hasSigLog (step_chunk_in hasSigLog d) evs none,
    ?_⟩
  intro hsig
  subst hsig
  exact loggedBefore_proxyRun true (step_chunk_winch c r) evs none

/-- C9 witness: a run with one output chunk: the forward at position 1 is
preceded by its log record. -/
theorem c9_log_before_forward_witness :
    ∃ j, j < 1
      ∧ (proxyTrace false
          [(PEvent.masterData "a" true, WaitSt.stillAlive)]).get? j
        = some (Action.logOutputAct "a") :=
  (c9_log_before_forward false
      [(PEvent.masterData "a" true, WaitSt.stillAlive)] "a" 0 0).1 1 rfl

end RustScript
